import Mathlib

/-!
Shallow embedding of the process-supervision and file-tree core of the
AccountantAI Electron main process (`main.js`): the IPC handlers for
renaming/moving files, listing directories, deleting files, starting and
stopping the Python worker process, and the stdout classification logic,
together with the POSIX path arithmetic (`path.join`, `path.dirname`,
`path.relative`) they rely on.  Paths are plain strings, the filesystem is
a finite association list from absolute path strings to nodes, and all
definitions are executable.
-/

namespace AccountantAI

/-! ## POSIX path arithmetic (the `path` module, posix branch) -/

/-- Whitespace predicate used by the JS `String.prototype.trim` embedding. -/
def isWs (c : Char) : Bool := c = ' ' ∨ c = '\n' ∨ c = '\t' ∨ c = '\r'

/-- JS `output.trim()`: strip leading and trailing whitespace. -/
def jsTrim (s : String) : String :=
  String.mk (((s.data.dropWhile isWs).reverse.dropWhile isWs).reverse)

/-- Split a path string on the separator character. -/
def splitSlashAux : List Char → List Char → List String
  | [], acc => [String.mk acc.reverse]
  | c :: cs, acc =>
    if c = '/' then String.mk acc.reverse :: splitSlashAux cs []
    else splitSlashAux cs (c :: acc)

/-- Split a path string on the slash separator. -/
def splitSlash (s : String) : List String := splitSlashAux s.data []

/-- Join segments with the slash separator. -/
def joinSlash : List String → String
  | [] => ""
  | [s] => s
  | s :: rest => s ++ "/" ++ joinSlash rest

/-- Nonempty segments of a path string. -/
def segsOf (p : String) : List String := (splitSlash p).filter (fun s => s ≠ "")

/-- Node `path.isAbsolute` (posix): the string starts with a slash. -/
def isAbsolute (s : String) : Bool := s.data.head? = some '/'

/-- Segment normalization for an absolute path, as performed by posix
`path.join`: empty and dot segments vanish, a dot-dot segment pops the
previous segment (and disappears at the root). -/
def normSegsAbs (segs : List String) : List String :=
  segs.foldl
    (fun acc s =>
      if s = "" ∨ s = "." then acc
      else if s = ".." then acc.dropLast
      else acc ++ [s])
    []

/-- Node `path.join(a, b)` for an absolute `a`: concatenate the segment
lists and normalize.  Every join performed by the handlers has the
configured absolute root as its first argument. -/
def pathJoin (a b : String) : String :=
  "/" ++ joinSlash (normSegsAbs (splitSlash a ++ splitSlash b))

/-- Node `path.dirname` of a normalized absolute path. -/
def dirname (p : String) : String :=
  "/" ++ joinSlash (segsOf p).dropLast

/-- Drop the longest common prefix of two segment lists. -/
def dropCommon : List String → List String → (List String × List String)
  | a :: as, b :: bs =>
    if a = b then dropCommon as bs else (a :: as, b :: bs)
  | as, bs => (as, bs)

/-- Node `path.relative(f, t)` for absolute normalized `f`, `t`. -/
def pathRelative (f t : String) : String :=
  let (fr, tr) := dropCommon (segsOf f) (segsOf t)
  joinSlash (List.replicate fr.length ".." ++ tr)

/-- JS `s.replace(/\.[^.]+$/, ".json")`: if the string has a final
dot-extension (a last dot followed by at least one character, none of them
a dot), replace that extension with `.json`; otherwise leave the string
unchanged. -/
def regexReplaceExt (s : String) : String :=
  let r := s.data.reverse
  let pre := r.takeWhile (fun c => c ≠ '.')
  match r.dropWhile (fun c => c ≠ '.') with
  | [] => s
  | _ :: untilDot =>
    if pre = [] then s
    else String.mk (untilDot.reverse ++ ".json".data)

/-- Boolean string-prefix test. -/
def strHasPrefix (pre s : String) : Bool := pre.data.isPrefixOf s.data

/-- Drop the first `n` characters of a string
(JS `s.substring(n)` for ASCII strings). -/
def strDrop (s : String) (n : Nat) : String := String.mk (s.data.drop n)

/-- A path lies inside (or equals) a root directory. -/
def isDescendant (root p : String) : Bool :=
  p = root ∨ strHasPrefix (root ++ "/") p

/-! ## Filesystem model

The filesystem is an association list from absolute, normalized path
strings to nodes; a file carries an abstract content identifier so that
"byte-for-byte unchanged" is expressible. -/

/-- A filesystem node: a directory, or a file with abstract contents. -/
inductive FSNode where
  | dir : FSNode
  | file : Nat → FSNode
deriving DecidableEq

/-- The filesystem: absolute path string to node. -/
abbrev FS := List (String × FSNode)

/-- Node lookup. -/
def lookupFS (fs : FS) (p : String) : Option FSNode := List.lookup p fs

/-- JS `fs.existsSync`. -/
def existsSyncB (fs : FS) (p : String) : Bool := (lookupFS fs p).isSome

/-- Rebase one path key from under `src` to under `tgt`
(identity on keys outside the `src` subtree). -/
def rebase (src tgt key : String) : String :=
  if key = src then tgt
  else if strHasPrefix (src ++ "/") key then tgt ++ strDrop key src.data.length
  else key

/-- JS `fs.renameSync`: fails if the source does not exist or the parent
directory of the target does not exist; otherwise moves the source node
and its entire subtree to the target path. -/
def renameSync (fs : FS) (src tgt : String) : Except String FS :=
  if existsSyncB fs src = false then
    Except.error ("ENOENT: no such file or directory, rename " ++ src)
  else if lookupFS fs (dirname tgt) ≠ some FSNode.dir then
    Except.error ("ENOENT: no such file or directory, rename to " ++ tgt)
  else
    Except.ok (fs.map (fun e => (rebase src tgt e.1, e.2)))

/-- JS `fs.unlinkSync`: fails on a missing path and on a directory
(`EPERM`/`EISDIR`); otherwise removes the file entry. -/
def unlinkSync (fs : FS) (p : String) : Except String FS :=
  match lookupFS fs p with
  | none => Except.error ("ENOENT: no such file or directory, unlink " ++ p)
  | some FSNode.dir => Except.error ("EPERM: operation not permitted, unlink " ++ p)
  | some (FSNode.file _) => Except.ok (fs.filter (fun e => e.1 ≠ p))

/-- JS `fs.readdirSync`: fails on a missing path (`ENOENT`) and on an
existing non-directory (`ENOTDIR`); otherwise returns the immediate
children names of the directory. -/
def readdirSync (fs : FS) (p : String) : Except String (List String) :=
  match lookupFS fs p with
  | none => Except.error ("ENOENT: no such file or directory, scandir " ++ p)
  | some (FSNode.file _) => Except.error ("ENOTDIR: not a directory, scandir " ++ p)
  | some FSNode.dir =>
    Except.ok (fs.filterMap (fun e =>
      if strHasPrefix (p ++ "/") e.1 then
        let rest := strDrop e.1 (p.data.length + 1)
        if rest.data.contains '/' ∨ rest = "" then none else some rest
      else none))

/-- Insert a string into a lexicographically sorted list. -/
def insertSorted (s : String) : List String → List String
  | [] => [s]
  | t :: ts => if s ≤ t then s :: t :: ts else t :: insertSorted s ts

/-- Lexicographic sort, embedding the default JS `Array.prototype.sort`
on ASCII names. -/
def sortStr (l : List String) : List String := l.foldr insertSorted []

/-! ## JSON values and a model of `JSON.parse`

The stdout handler calls `JSON.parse` on each chunk.  `JSON.parse` is a
platform builtin; it is embedded here restricted to flat objects whose
values are unescaped strings, integers, booleans or `null` — every record
shape the handler distinguishes (`status`, `success`) is of this form.
Surrounding whitespace is accepted and trailing garbage rejected, exactly
as `JSON.parse` does. -/

/-- A scalar JSON value. -/
inductive JVal where
  | str : String → JVal
  | num : Int → JVal
  | bool : Bool → JVal
  | null : JVal
deriving DecidableEq

/-- A flat JSON object: field name to scalar value, in source order. -/
abbrev JObj := List (String × JVal)

/-- Skip JSON whitespace. -/
def skipWs (cs : List Char) : List Char := cs.dropWhile isWs

/-- Parse the body of a JSON string after the opening quote; escape
sequences are not supported (none occur in the record shapes modelled). -/
def parseStrBody : List Char → Option (String × List Char)
  | [] => none
  | c :: cs =>
    if c = '"' then some ("", cs)
    else if c = '\\' then none
    else
      match parseStrBody cs with
      | some (s, rest) => some (String.mk (c :: s.data), rest)
      | none => none

/-- Accumulate a run of decimal digits. -/
def parseDigitsAux : List Char → Nat → (Nat × List Char)
  | [], acc => (acc, [])
  | c :: cs, acc =>
    if c.isDigit then parseDigitsAux cs (acc * 10 + (c.toNat - 48))
    else (acc, c :: cs)

/-- Parse a JSON integer (optional leading minus). -/
def parseNum : List Char → Option (Int × List Char)
  | [] => none
  | '-' :: rest =>
    match rest with
    | [] => none
    | c :: _ =>
      if c.isDigit then
        let (n, r) := parseDigitsAux rest 0
        some (-(n : Int), r)
      else none
  | c :: cs =>
    if c.isDigit then
      let (n, r) := parseDigitsAux (c :: cs) 0
      some ((n : Int), r)
    else none

/-- Parse a scalar JSON value. -/
def parseVal (cs : List Char) : Option (JVal × List Char) :=
  match cs with
  | '"' :: rest => (parseStrBody rest).map (fun p => (JVal.str p.1, p.2))
  | 't' :: 'r' :: 'u' :: 'e' :: r => some (JVal.bool true, r)
  | 'f' :: 'a' :: 'l' :: 's' :: 'e' :: r => some (JVal.bool false, r)
  | 'n' :: 'u' :: 'l' :: 'l' :: r => some (JVal.null, r)
  | _ => (parseNum cs).map (fun p => (JVal.num p.1, p.2))

/-- The opening-brace character. -/
def openBraceC : Char := Char.ofNat 123

/-- The closing-brace character. -/
def closeBraceC : Char := Char.ofNat 125

/-- Parse a nonempty comma-separated member list, fuelled by the input
length. -/
def parseMembers : Nat → List Char → Option (JObj × List Char)
  | 0, _ => none
  | fuel + 1, cs =>
    match skipWs cs with
    | '"' :: rest =>
      match parseStrBody rest with
      | none => none
      | some (key, r1) =>
        match skipWs r1 with
        | ':' :: r3 =>
          match parseVal (skipWs r3) with
          | none => none
          | some (v, r4) =>
            match skipWs r4 with
            | ',' :: r6 =>
              match parseMembers fuel r6 with
              | some (obj, r7) => some ((key, v) :: obj, r7)
              | none => none
            | r5 => some ([(key, v)], r5)
        | _ => none
    | _ => none

/-- Model of `JSON.parse` restricted to flat objects with scalar values:
surrounding whitespace allowed, trailing content rejected, `none` on any
malformed input (where `JSON.parse` would throw). -/
def jsonParseFlat (s : String) : Option JObj :=
  match skipWs s.data with
  | [] => none
  | c :: rest =>
    if c = openBraceC then
      match skipWs rest with
      | [] => none
      | d :: r2 =>
        if d = closeBraceC then
          if skipWs r2 = [] then some [] else none
        else
          match parseMembers s.data.length (d :: r2) with
          | none => none
          | some (obj, r3) =>
            match skipWs r3 with
            | [] => none
            | d2 :: r4 =>
              if d2 = closeBraceC ∧ skipWs r4 = [] then some obj else none
    else none

/-- JS truthiness of an optionally-present parsed field
(`if (jsonData.status)`). -/
def truthy : Option JVal → Bool
  | none => false
  | some (JVal.str s) => s ≠ ""
  | some (JVal.num n) => n ≠ 0
  | some (JVal.bool b) => b
  | some JVal.null => false

/-! ## Events and the stdout chunk handler -/

/-- An event sent to the renderer window
(`mainWindow.webContents.send(channel, payload)`). -/
inductive Event where
  | processStatus : JObj → Event
  | processResult : JObj → Event
  | pythonOutput : String → Event
  | pythonExit : Int → Event
deriving DecidableEq

/-- JS `t.startsWith("\x7b") && t.endsWith("\x7d")`. -/
def jsBraced (t : String) : Bool :=
  t.data.head? = some openBraceC ∧ t.data.getLast? = some closeBraceC

/-- The `pythonProcess.stdout.on("data")` handler, per chunk: if the
trimmed chunk is brace-delimited, `JSON.parse` the chunk; a parsed object
with a truthy `status` field is sent as a `process-status` event, else one
with a defined `success` field as a `process-result` event, else nothing
is sent; a parse failure is sent on the `python-output` channel; a chunk
that is not brace-delimited is sent as a running `process-status` event
carrying the raw chunk. -/
def handleStdoutChunk (output : String) : List Event :=
  let t := jsTrim output
  if jsBraced t then
    match jsonParseFlat output with
    | some jsonData =>
      if truthy (jsonData.lookup "status") then [Event.processStatus jsonData]
      else if (jsonData.lookup "success").isSome then [Event.processResult jsonData]
      else []
    | none => [Event.pythonOutput output]
  else
    [Event.processStatus [("status", JVal.str "running"), ("data", JVal.str output)]]

/-- Events produced by a sequence of stdout chunks: each chunk is handled
by its own `data` callback, in arrival order. -/
def processStream (chunks : List String) : List Event :=
  (chunks.map handleStdoutChunk).flatten

/-- Payload sent by the `close` handler on exit code `0`. -/
def successClosePayload : JObj :=
  [("success", JVal.bool true),
   ("message", JVal.str "Processing completed successfully"),
   ("processed", JVal.num 1)]

/-- Payload sent by the `close` handler on a nonzero exit code. -/
def failureClosePayload (code : Int) : JObj :=
  [("success", JVal.bool false),
   ("message", JVal.str ("Processing failed with exit code " ++ toString code)),
   ("processed", JVal.num 0)]

/-- The `pythonProcess.on("close")` handler: unconditionally sends the
exit code on `python-exit` and then a final `process-result` chosen by
whether the exit code is zero. -/
def closeEvents (code : Int) : List Event :=
  [Event.pythonExit code,
   if code = 0 then Event.processResult successClosePayload
   else Event.processResult (failureClosePayload code)]

/-- All events of one worker run: the stdout chunks in order, then the
`close` handler's events. -/
def runWorker (chunks : List String) (code : Int) : List Event :=
  processStream chunks ++ closeEvents code

/-- Completion signals are the `process-result` events. -/
def isCompletion : Event → Bool
  | Event.processResult _ => true
  | _ => false

/-- Number of completion signals in an event sequence. -/
def countCompletions (es : List Event) : Nat := es.countP isCompletion

/-! ## File-tree IPC handlers

The handlers close over `getDataDirectories()`, which derives the content
root (`processed`) and the parallel metadata root (`metadata`) from the
platform-specific application-data directory; they are embedded as fixed
representative absolute roots, on which no handler behavior depends. -/

/-- The configured content root (`processedDir`). -/
def processedDir : String := "/data/processed"

/-- The configured parallel metadata root (`metadataDir`). -/
def metadataDir : String := "/data/metadata"

/-- Structured result returned by the mutating handlers. -/
structure OpResult where
  success : Bool
  error : Option String := none
  path : Option String := none
deriving DecidableEq

/-- JS truthiness of an optionally-present string argument
(absent, `null` and the empty string are falsy). -/
def truthyS : Option String → Bool
  | none => false
  | some s => s ≠ ""

/-- The `data` argument of the `rename-file` handler. -/
structure RenameData where
  oldPath : Option String
  newName : Option String
  newPath : Option String
deriving DecidableEq

/-- Path resolution of the `rename-file` handler: reject missing
parameters; resolve the source against `processedDir` unless absolute;
the target is `newPath` (resolved the same way) when given, otherwise
`newName` inside the source's directory. -/
def renameResolve (d : RenameData) : Option (String × String) :=
  if truthyS d.oldPath = false ∨ (truthyS d.newName = false ∧ truthyS d.newPath = false) then
    none
  else
    let old := d.oldPath.getD ""
    let source := if isAbsolute old then old else pathJoin processedDir old
    let target :=
      if truthyS d.newPath then
        let np := d.newPath.getD ""
        if isAbsolute np then np else pathJoin processedDir np
      else pathJoin (dirname source) (d.newName.getD "")
    some (source, target)

/-- The `rename-file` IPC handler: invalid parameters fail; an existing
target fails with the already-exists message and no mutation; otherwise
`fs.renameSync` runs, a thrown error being caught and returned as a
failure result. -/
def renameFileHandler (fs : FS) (d : RenameData) : OpResult × FS :=
  match renameResolve d with
  | none => ({ success := false, error := some "Invalid parameters" }, fs)
  | some (src, tgt) =>
    if existsSyncB fs tgt then
      ({ success := false,
         error := some "A file or folder with this name already exists" }, fs)
    else
      match renameSync fs src tgt with
      | Except.ok fs' => ({ success := true }, fs')
      | Except.error e => ({ success := false, error := some e }, fs)

/-- Result shape of the `get-directory-contents` handler. -/
structure DirListing where
  error : Option String := none
  path : Option String := none
  dirs : List String := []
  files : List String := []
  fullPath : Option String := none
deriving DecidableEq

/-- Path resolution of the `get-directory-contents` handler: a falsy path
or the literal root name resolves to the root; a path with the root-name
prefix is stripped before joining; otherwise an absolute path is used as
given and a relative path joined to the root. -/
def dirResolve (dirPath : Option String) : String :=
  if truthyS dirPath = false ∨ dirPath = some "processed" then processedDir
  else
    let dp := dirPath.getD ""
    if strHasPrefix "processed/" dp then pathJoin processedDir (strDrop dp 10)
    else if isAbsolute dp then dp
    else pathJoin processedDir dp

/-- The `get-directory-contents` IPC handler: a missing path yields a
not-found error result; a throwing `fs.readdirSync` (existing
non-directory target) is caught and returned as an error result;
otherwise the entries are split into directories and files and both name
lists sorted. -/
def getDirectoryContents (fs : FS) (dirPath : Option String) : DirListing :=
  let tp := dirResolve dirPath
  if existsSyncB fs tp = false then
    { error := some ("Directory not found: " ++ tp), path := dirPath }
  else
    match readdirSync fs tp with
    | Except.error e => { error := some e, path := dirPath }
    | Except.ok items =>
      let dirs := items.filter (fun i => lookupFS fs (tp ++ "/" ++ i) = some FSNode.dir)
      let files := items.filter (fun i => lookupFS fs (tp ++ "/" ++ i) ≠ some FSNode.dir)
      { path := some (if truthyS dirPath then dirPath.getD "" else "processed"),
        dirs := sortStr dirs,
        files := sortStr files,
        fullPath := some tp }

/-- Path resolution of the `delete-file` handler (same scheme as
`get-file-url`): absolute paths pass through, a root-name prefix is
stripped, relative paths are joined to the root. -/
def deleteResolve (filePath : String) : String :=
  if isAbsolute filePath then filePath
  else if strHasPrefix "processed/" filePath then pathJoin processedDir (strDrop filePath 10)
  else pathJoin processedDir filePath

/-- The sidecar path of a deleted file: same path relative to the
metadata root, extension replaced by `.json`. -/
def metadataJsonPathOf (absPath : String) : String :=
  regexReplaceExt (pathJoin metadataDir (pathRelative processedDir absPath))

/-- The `delete-file` IPC handler: a missing target yields a not-found
failure; the target is unlinked; then, if the sidecar record exists, it
is unlinked too — all inside one `try`, so an error thrown by the sidecar
unlink is caught and returned as the handler's result even though the
primary unlink has already been applied. -/
def deleteFileHandler (fs : FS) (filePath : String) : OpResult × FS :=
  let abs := deleteResolve filePath
  if existsSyncB fs abs = false then
    ({ success := false, error := some ("File not found: " ++ abs) }, fs)
  else
    match unlinkSync fs abs with
    | Except.error e => ({ success := false, error := some e }, fs)
    | Except.ok fs1 =>
      let mj := metadataJsonPathOf abs
      if existsSyncB fs1 mj then
        match unlinkSync fs1 mj with
        | Except.ok fs2 => ({ success := true, path := some abs }, fs2)
        | Except.error e => ({ success := false, error := some e }, fs1)
      else
        ({ success := true, path := some abs }, fs1)

/-! ## Process supervisor: `startPythonProcess` and the stop handler -/

/-- Decidable equality for `Except`, needed to evaluate outcomes of the
fallible filesystem and spawn steps. -/
instance {ε α : Type} [DecidableEq ε] [DecidableEq α] : DecidableEq (Except ε α)
  | Except.ok a, Except.ok b =>
    if h : a = b then Decidable.isTrue (congrArg Except.ok h)
    else Decidable.isFalse (fun hh => h (Except.ok.inj hh))
  | Except.ok _, Except.error _ => Decidable.isFalse (fun hh => Except.noConfusion hh)
  | Except.error _, Except.ok _ => Decidable.isFalse (fun hh => Except.noConfusion hh)
  | Except.error e, Except.error f =>
    if h : e = f then Decidable.isTrue (congrArg Except.error h)
    else Decidable.isFalse (fun hh => h (Except.error.inj hh))

/-- The world `startPythonProcess` runs against: the current
`pythonProcess` variable, the credential file state, whether the worker
script is already in place, and the outcomes of the script-copying step
and of `spawn` (an `error` value models the corresponding call
throwing). -/
structure StartWorld where
  running : Option Nat
  envFileExists : Bool
  apiKey : Option String
  scriptReady : Bool
  copyResult : Except String Unit
  spawnResult : Except String Nat
deriving DecidableEq

/-- Structured result returned by `startPythonProcess`. -/
structure StartResult where
  success : Bool
  alreadyRunning : Bool := false
  pid : Option Nat := none
  error : Option String := none
deriving DecidableEq

/-- Outcome of a `startPythonProcess` call: the returned result, the new
value of `pythonProcess`, and how many times `spawn` was attempted. -/
structure StartOutcome where
  result : StartResult
  newRunning : Option Nat
  spawnAttempts : Nat
deriving DecidableEq

/-- The spawn step of `startPythonProcess`: on success the pid is stored
in `pythonProcess` and returned; a throwing `spawn` is caught and returned
as a failure with `pythonProcess` left unset. -/
def spawnStep (w : StartWorld) : StartOutcome :=
  match w.spawnResult with
  | Except.ok pid => ⟨{ success := true, pid := some pid }, some pid, 1⟩
  | Except.error e => ⟨{ success := false, error := some e }, none, 1⟩

/-- `startPythonProcess`: an already-running worker short-circuits to an
already-running success with no spawn; a missing credential file, a falsy
stored key or the placeholder key fail before any spawn; a failing
script-copy step fails before any spawn; otherwise `spawn` is attempted
exactly once. -/
def startPythonProcess (w : StartWorld) : StartOutcome :=
  match w.running with
  | some p => ⟨{ success := true, alreadyRunning := true }, some p, 0⟩
  | none =>
    if w.envFileExists = false then
      ⟨{ success := false,
         error := some "API key not set. Please set your API key in the settings." },
       none, 0⟩
    else if truthyS w.apiKey = false ∨ w.apiKey = some "your_api_key_here" then
      ⟨{ success := false,
         error := some "API key not set or using default value. Please update your API key in the settings." },
       none, 0⟩
    else if w.scriptReady = false then
      match w.copyResult with
      | Except.error e =>
        ⟨{ success := false,
           error := some ("Failed to set up Python environment: " ++ e) }, none, 0⟩
      | Except.ok _ => spawnStep w
    else spawnStep w

/-- A POSIX signal sent to the worker. -/
inductive Signal where
  | sigterm : Signal
  | sigkill : Signal
deriving DecidableEq

/-- Structured result returned by the `stop-python` handler. -/
structure StopResult where
  success : Bool
  notRunning : Bool := false
  error : Option String := none
deriving DecidableEq

/-- Outcome of a `stop-python` call: the returned result, the signals
sent synchronously, whether the five-second force-kill timer was
scheduled, and the value of `pythonProcess` when the handler returns. -/
structure StopOutcome where
  result : StopResult
  sentNow : List (Nat × Signal)
  timerSet : Bool
  newRunning : Option Nat
deriving DecidableEq

/-- The `stop-python` IPC handler (POSIX branch): with no process it
returns a not-running success; otherwise it sends `SIGTERM`, schedules
the five-second force-kill timer, and sets `pythonProcess` to `null`
before returning. -/
def stopPython (running : Option Nat) : StopOutcome :=
  match running with
  | none => ⟨{ success := true, notRunning := true }, [], false, none⟩
  | some p => ⟨{ success := true }, [(p, Signal.sigterm)], true, none⟩

/-- The force-kill timer callback: reads the `pythonProcess` variable at
fire time and sends `SIGKILL` to it only if it is still set. -/
def stopTimerFire (runningAtFire : Option Nat) : List (Nat × Signal) :=
  match runningAtFire with
  | some q => [(q, Signal.sigkill)]
  | none => []

end AccountantAI

namespace AccountantAI

/-! Sanity checks of the path arithmetic, evaluated by the kernel. -/

example : pathJoin "/data/processed" "../secret.txt" = "/data/secret.txt" := by decide

example : dirname "/data/secret.txt" = "/data" := by decide

example : pathRelative "/data/processed" "/data/processed/a.pdf" = "a.pdf" := by decide

example : regexReplaceExt "/data/metadata/a.pdf" = "/data/metadata/a.json" := by decide

example : regexReplaceExt "/data/metadata/noext" = "/data/metadata/noext" := by decide

example : jsTrim "  hi \n" = "hi" := by decide

example : jsonParseFlat "\x7b\"status\": \"ok\"\x7d" = some [("status", JVal.str "ok")] := by decide

example : jsonParseFlat "\x7b\"success\": true\x7d" = some [("success", JVal.bool true)] := by decide

example : jsonParseFlat "\x7b\"status\":" = none := by decide

example : jsonParseFlat "\x7b\"a\": 1\x7d\x7b\"b\": 2\x7d" = none := by decide

example : handleStdoutChunk "\x7b\"foo\": 1\x7d" = [] := by decide

example : handleStdoutChunk "plain line" =
    [Event.processStatus [("status", JVal.str "running"), ("data", JVal.str "plain line")]] := by decide

example : processStream ["\x7b\"status\":", " \"ok\"\x7d"] ≠ processStream ["\x7b\"status\": \"ok\"\x7d"] := by decide

/-! ## Concrete fixtures used by the claim theorems -/

/-- A tree whose root `/data/processed` is empty while `/data/secret.txt`
lies outside the root. -/
def fsEscape : FS :=
  [("/", FSNode.dir), ("/data", FSNode.dir), ("/data/processed", FSNode.dir),
   ("/data/secret.txt", FSNode.file 7)]

/-- A rename request whose relative source escapes the root via a
parent-traversal segment. -/
def dataEscape : RenameData :=
  { oldPath := some "../secret.txt", newName := some "stolen.txt", newPath := none }

/-- The tree after the escaping rename has been applied. -/
def fsEscaped : FS :=
  [("/", FSNode.dir), ("/data", FSNode.dir), ("/data/processed", FSNode.dir),
   ("/data/stolen.txt", FSNode.file 7)]

/-- A root holding the two files of the rename-collision scenario. -/
def fsCollide : FS :=
  [("/", FSNode.dir), ("/data", FSNode.dir), ("/data/processed", FSNode.dir),
   ("/data/processed/a.pdf", FSNode.file 1), ("/data/processed/b.pdf", FSNode.file 2)]

/-- A rename of `a.pdf` onto the existing name `b.pdf`. -/
def dataCollide : RenameData :=
  { oldPath := some "a.pdf", newName := some "b.pdf", newPath := none }

/-- A tree whose metadata mirror holds a directory where the sidecar
record of `a.pdf` would live, so the sidecar unlink throws. -/
def fsSidecar : FS :=
  [("/", FSNode.dir), ("/data", FSNode.dir), ("/data/processed", FSNode.dir),
   ("/data/processed/a.pdf", FSNode.file 3),
   ("/data/metadata", FSNode.dir), ("/data/metadata/a.json", FSNode.dir)]

/-- The sidecar tree after only the primary file has been removed. -/
def fsSidecarAfter : FS :=
  [("/", FSNode.dir), ("/data", FSNode.dir), ("/data/processed", FSNode.dir),
   ("/data/metadata", FSNode.dir), ("/data/metadata/a.json", FSNode.dir)]

/-- A world with a worker already running. -/
def wRunning : StartWorld :=
  { running := some 5, envFileExists := true, apiKey := some "sk-test", scriptReady := true,
    copyResult := Except.ok (), spawnResult := Except.ok 6 }

/-- A world where everything is in place but `spawn` throws. -/
def wSpawnFail : StartWorld :=
  { running := none, envFileExists := true, apiKey := some "sk-test", scriptReady := true,
    copyResult := Except.ok (), spawnResult := Except.error "spawn python3 ENOENT" }

/-- A world whose stored key is still the placeholder. -/
def wPlaceholderKey : StartWorld :=
  { running := none, envFileExists := true, apiKey := some "your_api_key_here",
    scriptReady := true, copyResult := Except.ok (), spawnResult := Except.ok 9 }

/-- A complete structured record, and the same bytes split across two
chunks. -/
def chunkFull : String := "\x7b\"status\": \"ok\"\x7d"

/-- First half of the split record. -/
def chunkA : String := "\x7b\"status\":"

/-- Second half of the split record. -/
def chunkB : String := " \"ok\"\x7d"

/-- A structured record with no recognized discriminator field. -/
def chunkNoDisc : String := "\x7b\"foo\": 1\x7d"

example : (getDirectoryContents fsCollide (some "a.pdf")).error =
    some "ENOTDIR: not a directory, scandir /data/processed/a.pdf" := by decide

/-! ## Claim theorems -/

/-- C1, counterexample: a rename whose relative source contains a
parent-traversal segment resolves outside the configured root, yet the
`rename-file` handler returns success and mutates the filesystem outside
the root — no `PathViolation` failure occurs. -/
theorem C1_path_escape_counterexample :
    renameResolve dataEscape = some ("/data/secret.txt", "/data/stolen.txt") ∧
    isDescendant processedDir "/data/secret.txt" = false ∧
    renameFileHandler fsEscape dataEscape = ({ success := true }, fsEscaped) ∧
    fsEscaped ≠ fsEscape := by decide

/-- C1, amended: the `rename-file` and `get-directory-contents` handlers
perform no root-containment check — once the parameters are present, the
only failure conditions are an existing destination and a thrown
filesystem error, so a source or target resolving outside the configured
root is accepted and the operation proceeds: the rename succeeds whenever
the destination is absent and the underlying rename does not throw, and
the listing succeeds whenever the resolved path is an existing
directory. -/
theorem C1_amended_no_containment_check :
    (∀ (fs fs' : FS) (d : RenameData) (src tgt : String),
        renameResolve d = some (src, tgt) →
        existsSyncB fs tgt = false →
        renameSync fs src tgt = Except.ok fs' →
        renameFileHandler fs d = ({ success := true }, fs')) ∧
    (∀ (fs : FS) (dp : Option String),
        lookupFS fs (dirResolve dp) = some FSNode.dir →
        (getDirectoryContents fs dp).error = none) := by
  constructor
  · intro fs fs' d src tgt hres hex hrn
    simp [renameFileHandler, hres, hex, hrn]
  · intro fs dp h
    simp [getDirectoryContents, existsSyncB, readdirSync, h]

/-- Witness for the amended C1: the escaping rename succeeds, and so does
listing `../..`, which resolves to `/`, outside the root. -/
theorem C1_amended_witness :
    renameFileHandler fsEscape dataEscape = ({ success := true }, fsEscaped) ∧
    (getDirectoryContents fsEscape (some "../..")).error = none :=
  ⟨C1_amended_no_containment_check.1 fsEscape fsEscaped dataEscape
      "/data/secret.txt" "/data/stolen.txt" (by decide) (by decide) (by decide),
   C1_amended_no_containment_check.2 fsEscape (some "../..") (by decide)⟩

/-- C2, counterexample: a run whose worker already emitted a structured
completion record and then exited with code `0` delivers two completion
signals — the synthetic completion is not suppressed by the observed
structured one. -/
theorem C2_duplicate_completion_counterexample :
    countCompletions (runWorker ["\x7b\"success\": true\x7d"] 0) = 2 := by decide

/-- C2, amended: on every exit the `close` handler emits exactly one
synthetic completion unconditionally — code `0` yields the success
payload, a nonzero code the failure payload carrying the code — so a run
delivers one more completion signal than its stdout stream produced. -/
theorem C2_amended_unconditional_synthetic_completion (chunks : List String) (code : Int) :
    countCompletions (runWorker chunks code) = countCompletions (processStream chunks) + 1 ∧
    runWorker chunks code =
      processStream chunks ++
        [Event.pythonExit code,
         Event.processResult
           (if code = 0 then successClosePayload else failureClosePayload code)] := by
  constructor
  · simp [runWorker, countCompletions, closeEvents, List.countP_append]
    split <;> simp [isCompletion, List.countP, List.countP.go]
  · simp [runWorker, closeEvents]
    split <;> simp

/-- C3: a `start` call made while a worker process is already running
returns immediately with an already-running success, leaves the process
variable unchanged, and attempts no spawn. -/
theorem C3_start_already_running (w : StartWorld) (p : Nat) (h : w.running = some p) :
    startPythonProcess w =
      ⟨{ success := true, alreadyRunning := true }, some p, 0⟩ := by
  simp [startPythonProcess, h]

/-- Witness for C3 at a world with PID 5 running. -/
theorem C3_witness :
    startPythonProcess wRunning =
      ⟨{ success := true, alreadyRunning := true }, some 5, 0⟩ :=
  C3_start_already_running wRunning 5 rfl

/-- C4: a rename or move whose destination already exists returns the
already-exists failure and leaves the filesystem — source and destination
included — exactly as it was. -/
theorem C4_rename_destination_exists (fs : FS) (d : RenameData) (src tgt : String)
    (hres : renameResolve d = some (src, tgt))
    (hex : existsSyncB fs tgt = true) :
    renameFileHandler fs d =
      ({ success := false,
         error := some "A file or folder with this name already exists" }, fs) := by
  simp [renameFileHandler, hres, hex]

/-- Witness for C4: renaming `a.pdf` onto the existing `b.pdf`. -/
theorem C4_witness :
    renameFileHandler fsCollide dataCollide =
      ({ success := false,
         error := some "A file or folder with this name already exists" }, fsCollide) :=
  C4_rename_destination_exists fsCollide dataCollide
    "/data/processed/a.pdf" "/data/processed/b.pdf" (by decide) (by decide)

/-- C5, code bug: the stop handler sends `SIGTERM`, schedules the
five-second force-kill timer, but nulls the process variable before
returning; the timer's guard reads that variable at fire time, so — with
no intervening start — it sees `none` and never sends `SIGKILL` to the
stopped process.  Stopping with no process running is still an immediate
success. -/
theorem C5_stop_force_kill_never_fires :
    stopPython none = ⟨{ success := true, notRunning := true }, [], false, none⟩ ∧
    stopPython (some 7) = ⟨{ success := true }, [(7, Signal.sigterm)], true, none⟩ ∧
    stopTimerFire (stopPython (some 7)).newRunning = [] := by decide

/-- C6: when the spawn step itself throws, `startPythonProcess` returns
an immediate failure carrying the thrown message, leaves no process
stored, and has attempted the spawn exactly once — no internal retry, no
waiting on a process exit. -/
theorem C6_spawn_failure_immediate (w : StartWorld) (e : String)
    (h1 : w.running = none) (h2 : w.envFileExists = true)
    (h3 : truthyS w.apiKey = true) (h4 : w.apiKey ≠ some "your_api_key_here")
    (h5 : w.scriptReady = true) (h6 : w.spawnResult = Except.error e) :
    startPythonProcess w = ⟨{ success := false, error := some e }, none, 1⟩ := by
  simp [startPythonProcess, h1, h2, h3, h4, h5, spawnStep, h6]

/-- Witness for C6 at a world whose spawn throws `ENOENT`. -/
theorem C6_witness :
    startPythonProcess wSpawnFail =
      ⟨{ success := false, error := some "spawn python3 ENOENT" }, none, 1⟩ :=
  C6_spawn_failure_immediate wSpawnFail "spawn python3 ENOENT"
    rfl rfl (by decide) (by decide) rfl rfl

/-- C7, counterexample: the same byte stream split at a different chunk
boundary yields a different classified event sequence — the handler does
not buffer until a complete record is available. -/
theorem C7_chunking_counterexample :
    chunkA ++ chunkB = chunkFull ∧
    processStream [chunkA, chunkB] ≠ processStream [chunkFull] := by decide

/-- C7, amended: the stdout handler buffers nothing — each chunk is
classified in isolation and a run's events are the concatenation of the
per-chunk classifications — so the classified event sequence depends on
how the stream is split into chunks, and a record split across a chunk
boundary is not recognized as structured. -/
theorem C7_amended_no_buffering (pre post : List String) (c : String) :
    processStream (pre ++ c :: post) =
      processStream pre ++ handleStdoutChunk c ++ processStream post ∧
    processStream [chunkA, chunkB] ≠ processStream [chunkA ++ chunkB] := by
  constructor
  · simp [processStream]
  · decide

/-- C8, counterexample: a record that parses as a structured object but
carries neither a truthy `status` field nor a defined `success` field
produces no event at all — it is dropped, not delivered as a `Log`
event. -/
theorem C8_unrecognized_dropped_counterexample :
    jsonParseFlat chunkNoDisc = some [("foo", JVal.num 1)] ∧
    truthy (([("foo", JVal.num 1)] : JObj).lookup "status") = false ∧
    ([("foo", JVal.num 1)] : JObj).lookup "success" = none ∧
    handleStdoutChunk chunkNoDisc = [] := by decide

/-- C8, amended: every brace-delimited record that parses as a structured
object without a recognized discriminator field is silently dropped — the
handler delivers no event for it. -/
theorem C8_amended_unrecognized_silently_dropped (chunk : String) (obj : JObj)
    (h1 : jsBraced (jsTrim chunk) = true)
    (h2 : jsonParseFlat chunk = some obj)
    (h3 : truthy (obj.lookup "status") = false)
    (h4 : obj.lookup "success" = none) :
    handleStdoutChunk chunk = [] := by
  simp [handleStdoutChunk, h1, h2, h3, h4]

/-- Witness for the amended C8 at the discriminator-free record. -/
theorem C8_amended_witness : handleStdoutChunk chunkNoDisc = [] :=
  C8_amended_unrecognized_silently_dropped chunkNoDisc [("foo", JVal.num 1)]
    (by decide) (by decide) (by decide) (by decide)

/-- C9, counterexample: deleting `a.pdf` removes the primary file, but
the sidecar unlink throws (the sidecar path exists as a directory) and
the handler reports failure — the primary deletion's success is not
preserved in the reported result. -/
theorem C9_sidecar_failure_counterexample :
    deleteFileHandler fsSidecar "a.pdf" =
      ({ success := false,
         error := some "EPERM: operation not permitted, unlink /data/metadata/a.json" },
       fsSidecarAfter) ∧
    existsSyncB fsSidecarAfter "/data/processed/a.pdf" = false := by decide

/-- C9, amended: `delete` removes the target and attempts removal of the
sidecar record (same relative path under the metadata root, extension
normalized to `.json`), but a failing sidecar unlink changes the reported
result to failure even though the primary deletion has already been
applied. -/
theorem C9_amended_sidecar_failure_flips_result (fs fs1 : FS) (p abs e : String)
    (h0 : deleteResolve p = abs)
    (hex : existsSyncB fs abs = true)
    (h1 : unlinkSync fs abs = Except.ok fs1)
    (h2 : existsSyncB fs1 (metadataJsonPathOf abs) = true)
    (h3 : unlinkSync fs1 (metadataJsonPathOf abs) = Except.error e) :
    deleteFileHandler fs p = ({ success := false, error := some e }, fs1) := by
  simp [deleteFileHandler, h0, hex, h1, h2, h3]

/-- Witness for the amended C9 at the directory-sidecar fixture. -/
theorem C9_amended_witness :
    deleteFileHandler fsSidecar "a.pdf" =
      ({ success := false,
         error := some "EPERM: operation not permitted, unlink /data/metadata/a.json" },
       fsSidecarAfter) :=
  C9_amended_sidecar_failure_flips_result fsSidecar fsSidecarAfter "a.pdf"
    "/data/processed/a.pdf" "EPERM: operation not permitted, unlink /data/metadata/a.json"
    (by decide) (by decide) (by decide) (by decide) (by decide)

/-- C10: with no worker running, a missing credential file, an absent or
empty stored key, or the placeholder key each make `startPythonProcess`
return a failure with an explanatory message, attempt no spawn, and store
no process. -/
theorem C10_missing_or_placeholder_key (w : StartWorld)
    (h1 : w.running = none)
    (h2 : w.envFileExists = false ∨ w.apiKey = none ∨ w.apiKey = some "" ∨
          w.apiKey = some "your_api_key_here") :
    (startPythonProcess w).result.success = false ∧
    (startPythonProcess w).result.error ≠ none ∧
    (startPythonProcess w).spawnAttempts = 0 ∧
    (startPythonProcess w).newRunning = none := by
  cases he : w.envFileExists with
  | false => simp [startPythonProcess, h1, he]
  | true =>
    rcases h2 with h | h | h | h
    · rw [he] at h; cases h
    · simp [startPythonProcess, h1, he, h, truthyS]
    · simp [startPythonProcess, h1, he, h, truthyS]
    · simp [startPythonProcess, h1, he, h, truthyS]

/-- Witness for C10 at the placeholder-key world. -/
theorem C10_witness :
    (startPythonProcess wPlaceholderKey).result.success = false ∧
    (startPythonProcess wPlaceholderKey).result.error ≠ none ∧
    (startPythonProcess wPlaceholderKey).spawnAttempts = 0 ∧
    (startPythonProcess wPlaceholderKey).newRunning = none :=
  C10_missing_or_placeholder_key wPlaceholderKey rfl
    (Or.inr (Or.inr (Or.inr rfl)))

end AccountantAI
